import Mathlib

/-!
Shallow embedding of the WH24P-esphome weather-station component.

The repository carries two sibling implementations of the component:
the `misol` variant (`src/components/misol_weather/weather_station.cpp`)
and the `misol_weather` variant (the unnamed source file holding
`weather_station.cpp` plus its header).  The embedding below follows the
`misol_weather` variant for the session model (it is the one with the
night detector, the `optional`-based precipitation baseline and the
configurable precipitation interval) and additionally embeds the `misol`
variant's precipitation block, which differs in ways several claims
depend on.

Modelling conventions: bytes are `Nat` (the C++ domain is `uint8_t`, a
subset); timestamps are `Int` milliseconds; published floating-point
values are modelled exactly as rationals, with `FloatVal.nan` standing
for the C++ `NAN` "no reading" marker.  `publish_state` calls are
modelled as record fields of type `Option`: `none` means the channel was
not published this step (sensor absent or gated), `some v` means `v` was
published.
-/

namespace MisolWeather

/-- Mirrors `enum class PacketType` of the header. -/
inductive PacketType where
  | wrong
  | basic
  | basicWithPressure
deriving DecidableEq

/-- A published floating-point value: either a finite number or `NAN`. -/
inductive FloatVal where
  | nan
  | num (q : ℚ)
deriving DecidableEq

/-- The file-scope static state of `detect_night` (`static bool
previous_result`, `static bool first_run`). -/
structure NightState where
  firstRun : Bool
  previous : Bool
deriving DecidableEq

/-- The per-instance session fields of `WeatherStation`:
`first_data_received_`, `last_packet_time_`, `previous_precipitation_`,
`previous_precipitation_timestamp_`. -/
structure StationState where
  firstDataReceived : Bool
  lastPacketTime : Int
  prevPrecip : Option ℕ
  prevPrecipTime : Int
deriving DecidableEq

/-- Which optional sub-entities are configured (non-null sensor
pointers), plus the configurable thresholds and the precipitation
interval in milliseconds. -/
structure Config where
  hasTemperature : Bool
  hasHumidity : Bool
  hasPressure : Bool
  hasWindSpeed : Bool
  hasWindGust : Bool
  hasWindDir : Bool
  hasAccPrecip : Bool
  hasUvIntensity : Bool
  hasUvIndex : Bool
  hasLight : Bool
  hasPrecipIntensity : Bool
  hasBattery : Bool
  hasNight : Bool
  lowerNight : ℚ
  upperNight : ℚ
  precipIntervalMs : Int
deriving DecidableEq

/-- One `publish_state` record per channel for one processing step. -/
structure ChannelOut where
  temperature : Option FloatVal
  humidity : Option FloatVal
  pressure : Option FloatVal
  windSpeed : Option FloatVal
  windGust : Option FloatVal
  windDir : Option FloatVal
  accPrecip : Option FloatVal
  uvIntensity : Option FloatVal
  uvIndex : Option FloatVal
  light : Option FloatVal
  precipIntensity : Option FloatVal
  battery : Option Bool
  night : Option Bool
deriving DecidableEq

/-- `COMMUNICATION_TIMOUT = std::chrono::minutes(2)` in milliseconds. -/
def communicationTimeoutMs : Int := 120000

/-- The old `misol` variant's constant
`PRECIPITATION_INTENSITY_INTERVAL = std::chrono::minutes(3)`. -/
def precipitationIntensityIntervalMs : Int := 180000

/-- The `uint8_t checksum` accumulation loop: each addition truncates
modulo 256. -/
def chk8 (l : List ℕ) : ℕ := l.foldl (fun c b => (c + b) % 256) 0

/-- `WeatherStation::check_packet_` (identical in both variants). -/
def check_packet_ (data : List ℕ) : PacketType :=
  if data.length < 17 then .wrong
  else if data.getD 0 0 ≠ 0x24 then .wrong
  else if chk8 (data.take 16) ≠ data.getD 16 0 then .wrong
  else if 17 < data.length then
    if data.length < 21 then .basic
    else if chk8 ((data.drop 17).take 3) ≠ data.getD 20 0 then .basic
    else .basicWithPressure
  else .basic

theorem chk8_from (l : List ℕ) :
    ∀ c : ℕ, l.foldl (fun a b => (a + b) % 256) (c % 256) = (c + l.sum) % 256 := by
  induction l with
  | nil => intro c; simp [List.foldl]
  | cons b t ih =>
    intro c
    have h1 : (c % 256 + b) % 256 = (c + b) % 256 := by omega
    simp only [List.foldl_cons, List.sum_cons]
    rw [h1, ih (c + b)]
    ring_nf

/-- The truncating checksum loop equals the mod-256 sum. -/
theorem chk8_eq_sum_mod (l : List ℕ) : chk8 l = l.sum % 256 := by
  have h := chk8_from l 0
  simpa [chk8] using h

/-- The file-scope `detect_night` of the `misol_weather` variant.  The
C++ statics become explicit state; the returned pair is (result, new
static state). -/
def detect_night (uv lo hi : ℚ) (s : NightState) : Bool × NightState :=
  let result :=
    if s.firstRun then decide (uv < (lo + hi) / 2)
    else if s.previous then decide (uv < hi) else decide (uv < lo)
  (result, ⟨false, result⟩)

/-- The fresh (program-start) value of `detect_night`'s statics. -/
def nightInit : NightState := ⟨true, false⟩

/-- Raw wind-direction bits: `data[2] + ((uint16)(data[3] & 0x80)) << 1`. -/
def windDirRaw (data : List ℕ) : ℕ := data.getD 2 0 + (data.getD 3 0 &&& 0x80) <<< 1

/-- Raw temperature bits: `data[4] + ((uint16)(data[3] & 0x07)) << 8`. -/
def temperatureRaw (data : List ℕ) : ℕ := data.getD 4 0 + (data.getD 3 0 &&& 0x07) <<< 8

/-- Raw wind-speed bits: `data[6] + ((uint16)(data[3] & 0x10)) << 4`. -/
def windSpeedRaw (data : List ℕ) : ℕ := data.getD 6 0 + (data.getD 3 0 &&& 0x10) <<< 4

/-- Raw accumulated-precipitation counter: `data[9] + ((uint16)data[8]) << 8`. -/
def accPrecipRaw (data : List ℕ) : ℕ := data.getD 9 0 + data.getD 8 0 <<< 8

/-- Raw UV-intensity bits: `data[11] + ((uint16)data[10]) << 8`. -/
def uvRaw (data : List ℕ) : ℕ := data.getD 11 0 + data.getD 10 0 <<< 8

/-- Raw illuminance bits: `data[14] + (data[13] << 8) + (data[12] << 16)`. -/
def lightRaw (data : List ℕ) : ℕ :=
  data.getD 14 0 + data.getD 13 0 <<< 8 + data.getD 12 0 <<< 16

/-- The precipitation-intensity block of the `misol_weather` variant's
`process_packet_` (the statements guarded by
`previous_precipitation_.has_value()`).  Input: configured interval in
ms, stored baseline and its timestamp, current counter, `now`.  Output:
the new `(previous_precipitation_, previous_precipitation_timestamp_)`
pair and — when `precipitation_intensity_updated` was set — the value
published on the precipitation-intensity channel.  `duration_cast` to
seconds truncates toward zero, hence `Int.tdiv`; the comparison of a
`seconds` value with a `milliseconds` value converts to milliseconds. -/
def precipitation_update (intervalMs : Int) (prev : Option ℕ) (prevTs : Int)
    (acc : ℕ) (now : Int) : (Option ℕ × Int) × Option FloatVal :=
  match prev with
  | some p =>
    let itv : Int := (now - prevTs).tdiv 1000
    if itv * 1000 > intervalMs then
      ((some acc, now),
       some (.num (((acc : ℚ) - (p : ℚ)) * (3/10) / ((itv : ℚ) / 3600))))
    else ((some p, prevTs), none)
  | none => ((some acc, now), none)

/-- The precipitation-intensity block of the `misol` variant
(`weather_station.cpp`): the baseline marker is the plain value
`0xFFFF`, the interval is the fixed 3-minute constant, and the
establishment branch stamps the baseline with a second
`steady_clock::now()` call, modelled as the extra argument `now2`.
The rate expression subtracts `previos_precipitation_` after that
member has already been overwritten with the current counter. -/
def precipitation_update_old (prev : ℕ) (prevTs : Int) (acc : ℕ)
    (now now2 : Int) : (ℕ × Int) × Option FloatVal :=
  if acc ≠ 0xFFFF then
    if prev ≠ 0xFFFF then
      let itv : Int := (now - prevTs).tdiv 1000
      if itv * 1000 > precipitationIntensityIntervalMs then
        let prevAfter := acc
        ((prevAfter, now),
         some (.num (((acc : ℚ) - (prevAfter : ℚ)) * (3/10) / ((itv : ℚ) / 3600))))
      else ((prev, prevTs), none)
    else ((acc, now2), none)
  else ((0xFFFF, prevTs), some .nan)

/-- `WeatherStation::process_packet_` of the `misol_weather` variant.
Returns the new night-detector statics, the new station state and the
per-channel publishes of this call. -/
def process_packet_ (cfg : Config) (g : NightState) (st : StationState)
    (data : List ℕ) (hasPressure : Bool) (now : Int) :
    NightState × StationState × ChannelOut :=
  let pressureOut : Option FloatVal :=
    if cfg.hasPressure then
      some (if hasPressure then
              .num (((data.getD 17 0 <<< 16 + data.getD 18 0 <<< 8 + data.getD 19 0 : ℕ) : ℚ) / 100)
            else .nan)
    else none
  let windDirOut : Option FloatVal :=
    if cfg.hasWindDir then
      some (if windDirRaw data ≠ 0x1FF then .num (windDirRaw data) else .nan)
    else none
  let batteryOut : Option Bool :=
    if cfg.hasBattery then some (decide (data.getD 3 0 &&& 0x08 ≠ 0)) else none
  let temperature : FloatVal :=
    if temperatureRaw data ≠ 0x7FF then .num (((temperatureRaw data : ℚ) - 400) / 10) else .nan
  let temperatureOut : Option FloatVal :=
    if cfg.hasTemperature then some temperature else none
  let humidityOut : Option FloatVal :=
    if cfg.hasHumidity then some (.num (data.getD 5 0)) else none
  let windSpeed : FloatVal :=
    if windSpeedRaw data ≠ 0x1FF then .num ((windSpeedRaw data : ℚ) / 8 * (28/25)) else .nan
  let windSpeedOut : Option FloatVal :=
    if cfg.hasWindSpeed then some windSpeed else none
  let windGustOut : Option FloatVal :=
    if cfg.hasWindGust then
      some (if data.getD 7 0 ≠ 0xFF then .num ((data.getD 7 0 : ℚ) * (28/25)) else .nan)
    else none
  let pr := precipitation_update cfg.precipIntervalMs st.prevPrecip st.prevPrecipTime
              (accPrecipRaw data) now
  let accPrecipOut : Option FloatVal :=
    if cfg.hasAccPrecip then some (.num ((accPrecipRaw data : ℚ) * (3/10))) else none
  let precipIntensityOut : Option FloatVal :=
    if cfg.hasPrecipIntensity then pr.2 else none
  let uvIntensity : Option ℚ :=
    if uvRaw data ≠ 0xFFFF then some ((uvRaw data : ℚ) / 10) else none
  let uvIntensityOut : Option FloatVal :=
    if cfg.hasUvIntensity then
      some (match uvIntensity with
            | some q => .num q
            | none => .nan)
    else none
  let uvIndexOut : Option FloatVal :=
    if cfg.hasUvIndex then
      some (match uvIntensity with
            | some _ => .num ((uvRaw data / 400 : ℕ) : ℚ)
            | none => .nan)
    else none
  let nightPair : Option Bool × NightState :=
    if cfg.hasNight then
      match uvIntensity with
      | some q =>
        let r := detect_night q cfg.lowerNight cfg.upperNight g
        (some r.1, r.2)
      | none => (none, g)
    else (none, g)
  let lightOut : Option FloatVal :=
    if cfg.hasLight then
      some (if lightRaw data ≠ 0xFFFFFF then .num ((lightRaw data : ℚ) / 10) else .nan)
    else none
  (nightPair.2,
   { st with prevPrecip := pr.1.1, prevPrecipTime := pr.1.2 },
   { temperature := temperatureOut, humidity := humidityOut, pressure := pressureOut,
     windSpeed := windSpeedOut, windGust := windGustOut, windDir := windDirOut,
     accPrecip := accPrecipOut, uvIntensity := uvIntensityOut, uvIndex := uvIndexOut,
     light := lightOut, precipIntensity := precipIntensityOut,
     battery := batteryOut, night := nightPair.1 })

/-- `WeatherStation::reset_sub_entities_` of the `misol_weather`
variant: publish `NAN` on every configured numeric sensor; only when
the precipitation-intensity sensor is configured, also drop the
baseline.  The battery-low and night binary sensors are not touched,
nor are `detect_night`'s statics. -/
def reset_sub_entities_ (cfg : Config) (st : StationState) : StationState × ChannelOut :=
  ({ st with prevPrecip := if cfg.hasPrecipIntensity then none else st.prevPrecip },
   { temperature := if cfg.hasTemperature then some .nan else none,
     humidity := if cfg.hasHumidity then some .nan else none,
     pressure := if cfg.hasPressure then some .nan else none,
     windSpeed := if cfg.hasWindSpeed then some .nan else none,
     windGust := if cfg.hasWindGust then some .nan else none,
     windDir := if cfg.hasWindDir then some .nan else none,
     accPrecip := if cfg.hasAccPrecip then some .nan else none,
     uvIntensity := if cfg.hasUvIntensity then some .nan else none,
     uvIndex := if cfg.hasUvIndex then some .nan else none,
     light := if cfg.hasLight then some .nan else none,
     precipIntensity := if cfg.hasPrecipIntensity then some .nan else none,
     battery := none, night := none })

/-- `WeatherStation::loop` of the `misol_weather` variant for one
scheduler tick.  `buf` is the byte buffer read this tick (empty when
`available()` returned 0).  The output pair is (publishes of a timeout
reset, publishes of packet processing); `none` components mean the
corresponding phase published nothing. -/
def loop (cfg : Config) (s : NightState × StationState) (now : Int) (buf : List ℕ) :
    (NightState × StationState) × (Option ChannelOut × Option ChannelOut) :=
  let g := s.1
  let st := s.2
  let fires := st.firstDataReceived = true ∧ now - st.lastPacketTime > communicationTimeoutMs
  let afterReset :=
    if fires then
      let r := reset_sub_entities_ cfg { st with firstDataReceived := false }
      (r.1, some r.2)
    else (st, (none : Option ChannelOut))
  let st1 := afterReset.1
  let resetPub := afterReset.2
  if buf.isEmpty then ((g, st1), (resetPub, none))
  else
    let st2 := { st1 with firstDataReceived := true, lastPacketTime := now }
    let pt := check_packet_ buf
    if pt = PacketType.wrong then ((g, st2), (resetPub, none))
    else
      let r := process_packet_ cfg g st2 buf
                 (if pt = PacketType.basicWithPressure then true else false) now
      ((r.1, r.2.1), (resetPub, some r.2.2))

/-- State at construction: `first_data_received_{false}`, empty
`previous_precipitation_`, default-initialised timestamps. -/
def stationInit : StationState := ⟨false, 0, none, 0⟩

/-- A full configuration: every sub-entity registered, the default
thresholds 4.5 / 5.5 and the default 5-minute precipitation interval. -/
def cfgFull : Config :=
  ⟨true, true, true, true, true, true, true, true, true, true, true, true, true,
   9/2, 11/2, 300000⟩

/-- Running one session over a list of (tick time, received buffer)
inputs, returning the final state. -/
def runSession (cfg : Config) (s : NightState × StationState) :
    List (Int × List ℕ) → NightState × StationState
  | [] => s
  | (now, buf) :: rest => runSession cfg (loop cfg s now buf).1 rest

/-- C5: `check_packet_` returns `wrong` exactly when the length is
below 17, byte 0 differs from 0x24, or the mod-256 sum of bytes [0,16)
differs from byte 16; otherwise it returns `basicWithPressure` exactly
when the length is at least 21 and the mod-256 sum of bytes [17,20)
equals byte 20, and `basic` in every other case. -/
theorem c5_check_packet_classification (data : List ℕ) :
    (check_packet_ data = .wrong ↔
      (data.length < 17 ∨ data.getD 0 0 ≠ 0x24 ∨
        (data.take 16).sum % 256 ≠ data.getD 16 0))
    ∧ (check_packet_ data = .basicWithPressure ↔
      (¬(data.length < 17 ∨ data.getD 0 0 ≠ 0x24 ∨
          (data.take 16).sum % 256 ≠ data.getD 16 0)
        ∧ 21 ≤ data.length ∧ ((data.drop 17).take 3).sum % 256 = data.getD 20 0))
    ∧ (check_packet_ data = .basic ↔
      (¬(data.length < 17 ∨ data.getD 0 0 ≠ 0x24 ∨
          (data.take 16).sum % 256 ≠ data.getD 16 0)
        ∧ ¬(21 ≤ data.length ∧ ((data.drop 17).take 3).sum % 256 = data.getD 20 0))) := by
  unfold check_packet_
  rw [chk8_eq_sum_mod, chk8_eq_sum_mod]
  by_cases h1 : data.length < 17
  · rw [if_pos h1]
    refine ⟨iff_of_true rfl (Or.inl h1), iff_of_false (by decide) ?_,
            iff_of_false (by decide) ?_⟩
    · exact fun h => h.1 (Or.inl h1)
    · exact fun h => h.1 (Or.inl h1)
  · rw [if_neg h1]
    by_cases h2 : data.getD 0 0 ≠ 0x24
    · rw [if_pos h2]
      refine ⟨iff_of_true rfl (Or.inr (Or.inl h2)), iff_of_false (by decide) ?_,
              iff_of_false (by decide) ?_⟩
      · exact fun h => h.1 (Or.inr (Or.inl h2))
      · exact fun h => h.1 (Or.inr (Or.inl h2))
    · rw [if_neg h2]
      by_cases h3 : (data.take 16).sum % 256 ≠ data.getD 16 0
      · rw [if_pos h3]
        refine ⟨iff_of_true rfl (Or.inr (Or.inr h3)), iff_of_false (by decide) ?_,
                iff_of_false (by decide) ?_⟩
        · exact fun h => h.1 (Or.inr (Or.inr h3))
        · exact fun h => h.1 (Or.inr (Or.inr h3))
      · rw [if_neg h3]
        have hA : ¬(data.length < 17 ∨ data.getD 0 0 ≠ 0x24 ∨
            (data.take 16).sum % 256 ≠ data.getD 16 0) :=
          fun h => h.elim h1 (fun h' => h'.elim h2 h3)
        by_cases h4 : 17 < data.length
        · rw [if_pos h4]
          by_cases h5 : data.length < 21
          · rw [if_pos h5]
            refine ⟨iff_of_false (by decide) hA, iff_of_false (by decide) ?_,
                    iff_of_true rfl ⟨hA, ?_⟩⟩
            · exact fun h => by omega
            · exact fun h => by omega
          · rw [if_neg h5]
            by_cases h6 : ((data.drop 17).take 3).sum % 256 ≠ data.getD 20 0
            · rw [if_pos h6]
              refine ⟨iff_of_false (by decide) hA, iff_of_false (by decide) ?_,
                      iff_of_true rfl ⟨hA, fun h => h6 h.2⟩⟩
              · exact fun h => h6 h.2.2
            · rw [if_neg h6]
              refine ⟨iff_of_false (by decide) hA,
                      iff_of_true rfl ⟨hA, by omega, not_not.mp h6⟩,
                      iff_of_false (by decide) ?_⟩
              · exact fun h => h.2 ⟨by omega, not_not.mp h6⟩
        · rw [if_neg h4]
          refine ⟨iff_of_false (by decide) hA, iff_of_false (by decide) ?_,
                  iff_of_true rfl ⟨hA, ?_⟩⟩
          · exact fun h => by omega
          · exact fun h => by omega

theorem getD_eq_of_take_eq {l1 l2 : List ℕ} {n : ℕ} (h : l1.take n = l2.take n)
    {i : ℕ} (hi : i < n) : l1.getD i 0 = l2.getD i 0 := by
  simp only [List.getD_eq_getElem?_getD]
  rw [← List.getElem?_take_of_lt (l := l1) hi, ← List.getElem?_take_of_lt (l := l2) hi, h]

theorem check_packet_congr_aux (l1 l2 : List ℕ) (hlen : l1.length = l2.length)
    (h0 : l1.getD 0 0 = l2.getD 0 0) (h16s : l1.take 16 = l2.take 16)
    (h16 : l1.getD 16 0 = l2.getD 16 0)
    (hdeep : 21 ≤ l1.length →
      (l1.drop 17).take 3 = (l2.drop 17).take 3 ∧ l1.getD 20 0 = l2.getD 20 0) :
    check_packet_ l1 = check_packet_ l2 := by
  unfold check_packet_
  rw [← hlen, ← h0, ← h16s, ← h16]
  by_cases h21 : 21 ≤ l1.length
  · obtain ⟨hd, h20⟩ := hdeep h21
    rw [← hd, ← h20]
  · by_cases c1 : l1.length < 17
    · simp only [if_pos c1]
    · simp only [if_neg c1]
      by_cases c2 : l1.getD 0 0 ≠ 0x24
      · simp only [if_pos c2]
      · simp only [if_neg c2]
        by_cases c3 : chk8 (l1.take 16) ≠ l1.getD 16 0
        · simp only [if_pos c3]
        · simp only [if_neg c3]
          by_cases c4 : 17 < l1.length
          · simp only [if_pos c4, if_pos (show l1.length < 21 by omega)]
          · simp only [if_neg c4]

/-- C10: `check_packet_` never reads out of bounds: a buffer shorter
than 17 is rejected without reading any byte; for lengths below 21 the
result is determined by the first 17 bytes alone; in general the result
is determined by the first 21 bytes. -/
theorem c10_check_packet_reads_in_bounds :
    (∀ data : List ℕ, data.length < 17 → check_packet_ data = .wrong)
    ∧ (∀ l1 l2 : List ℕ, l1.length = l2.length → l1.length < 21 →
        l1.take 17 = l2.take 17 → check_packet_ l1 = check_packet_ l2)
    ∧ (∀ l1 l2 : List ℕ, l1.length = l2.length →
        l1.take 21 = l2.take 21 → check_packet_ l1 = check_packet_ l2) := by
  refine ⟨?_, ?_, ?_⟩
  · intro data h
    unfold check_packet_
    rw [if_pos h]
  · intro l1 l2 hlen h21 h17
    have h16s : l1.take 16 = l2.take 16 := by
      have h := congrArg (List.take 16) h17
      simpa [List.take_take, show min 16 17 = 16 from by decide] using h
    refine check_packet_congr_aux l1 l2 hlen
      (getD_eq_of_take_eq h17 (by norm_num))
      h16s (getD_eq_of_take_eq h17 (by norm_num))
      (fun h => absurd h (by omega))
  · intro l1 l2 hlen h21
    have h17 : l1.take 17 = l2.take 17 := by
      have h := congrArg (List.take 17) h21
      simpa [List.take_take, show min 17 21 = 17 from by decide] using h
    have h16s : l1.take 16 = l2.take 16 := by
      have h := congrArg (List.take 16) h17
      simpa [List.take_take, show min 16 17 = 16 from by decide] using h
    have hd4 : (l1.drop 17).take 4 = (l2.drop 17).take 4 := by
      have h := congrArg (List.drop 17) h21
      simpa [List.drop_take] using h
    have hd3 : (l1.drop 17).take 3 = (l2.drop 17).take 3 := by
      have h := congrArg (List.take 3) hd4
      simpa [List.take_take, show min 3 4 = 3 from by decide] using h
    refine check_packet_congr_aux l1 l2 hlen
      (getD_eq_of_take_eq h17 (by norm_num))
      h16s (getD_eq_of_take_eq h17 (by norm_num))
      (fun _ => ⟨hd3, getD_eq_of_take_eq h21 (by norm_num)⟩)

/-- Witness for C10 at concrete buffers: a short buffer is rejected,
and buffers agreeing on the read prefix classify identically. -/
theorem c10_witness :
    (([0] : List ℕ).length < 17 ∧ check_packet_ [0] = .wrong)
    ∧ ((List.replicate 18 (0:ℕ)).length = (List.replicate 17 (0:ℕ) ++ [5]).length
        ∧ (List.replicate 18 (0:ℕ)).length < 21
        ∧ (List.replicate 18 (0:ℕ)).take 17 = (List.replicate 17 (0:ℕ) ++ [5]).take 17
        ∧ check_packet_ (List.replicate 18 0) = check_packet_ (List.replicate 17 0 ++ [5]))
    ∧ ((List.replicate 22 (0:ℕ)).length = (List.replicate 21 (0:ℕ) ++ [7]).length
        ∧ (List.replicate 22 (0:ℕ)).take 21 = (List.replicate 21 (0:ℕ) ++ [7]).take 21
        ∧ check_packet_ (List.replicate 22 0) = check_packet_ (List.replicate 21 0 ++ [7])) :=
  ⟨⟨by decide, c10_check_packet_reads_in_bounds.1 [0] (by decide)⟩,
   ⟨by decide, by decide, by decide,
    c10_check_packet_reads_in_bounds.2.1 _ _ (by decide) (by decide) (by decide)⟩,
   ⟨by decide, by decide,
    c10_check_packet_reads_in_bounds.2.2 _ _ (by decide) (by decide)⟩⟩

/-- Iterating `detect_night` over a list of UV readings from a given
static state, collecting the published results. -/
def nightRun (lo hi : ℚ) (s : NightState) : List ℚ → List Bool
  | [] => []
  | uv :: rest =>
    let r := detect_night uv lo hi s
    r.1 :: nightRun lo hi r.2 rest

theorem nightRun_length (lo hi : ℚ) (s : NightState) (uvs : List ℚ) :
    (nightRun lo hi s uvs).length = uvs.length := by
  induction uvs generalizing s with
  | nil => rfl
  | cons uv rest ih => simp [nightRun, ih]

theorem nightRun_step (lo hi : ℚ) (s : NightState) (uvs : List ℚ) :
    ∀ i, i + 1 < uvs.length →
      (nightRun lo hi s uvs).getD (i + 1) false =
        (if (nightRun lo hi s uvs).getD i false then decide (uvs.getD (i + 1) 0 < hi)
         else decide (uvs.getD (i + 1) 0 < lo)) := by
  induction uvs generalizing s with
  | nil => intro i h; simp at h
  | cons uv rest ih =>
    intro i h
    match i with
    | 0 =>
      match rest, h with
      | uv2 :: rest2, _ =>
        simp only [nightRun, List.getD_cons_succ, List.getD_cons_zero]
        rfl
    | j + 1 =>
      simp only [nightRun, List.getD_cons_succ]
      exact ih _ j (by simpa using h)

/-- C6: over any sequence of UV readings, `detect_night` starting from
its fresh statics answers `uv < (lo+hi)/2` on the first call, and on
every later call answers `uv < hi` when the previous result was night
and `uv < lo` when it was day. -/
theorem c6_detect_night_hysteresis (lo hi : ℚ) (uvs : List ℚ) :
    (uvs ≠ [] →
      (nightRun lo hi nightInit uvs).getD 0 false =
        decide (uvs.getD 0 0 < (lo + hi) / 2))
    ∧ (∀ i, i + 1 < uvs.length →
      (nightRun lo hi nightInit uvs).getD (i + 1) false =
        (if (nightRun lo hi nightInit uvs).getD i false
         then decide (uvs.getD (i + 1) 0 < hi)
         else decide (uvs.getD (i + 1) 0 < lo))) := by
  constructor
  · intro h
    match uvs, h with
    | uv :: rest, _ => simp [nightRun, detect_night, nightInit]
  · exact nightRun_step lo hi nightInit uvs

/-- Witness for C6 on the readings 0, 5, 5, 6 with the default 4.5/5.5
thresholds. -/
theorem c6_witness :
    (([0, 5, 5, 6] : List ℚ) ≠ []
      ∧ (nightRun (9/2) (11/2) nightInit [0, 5, 5, 6]).getD 0 false =
          decide ((([0, 5, 5, 6] : List ℚ).getD 0 0) < ((9:ℚ)/2 + 11/2) / 2))
    ∧ (1 + 1 < ([0, 5, 5, 6] : List ℚ).length
      ∧ (nightRun (9/2) (11/2) nightInit [0, 5, 5, 6]).getD (1 + 1) false =
          (if (nightRun (9/2) (11/2) nightInit [0, 5, 5, 6]).getD 1 false
           then decide ((([0, 5, 5, 6] : List ℚ).getD (1 + 1) 0) < (11:ℚ)/2)
           else decide ((([0, 5, 5, 6] : List ℚ).getD (1 + 1) 0) < (9:ℚ)/2))) :=
  ⟨⟨by decide, (c6_detect_night_hysteresis (9/2) (11/2) [0, 5, 5, 6]).1 (by decide)⟩,
   ⟨by decide, (c6_detect_night_hysteresis (9/2) (11/2) [0, 5, 5, 6]).2 1 (by decide)⟩⟩

theorem process_packet_preserves_first (cfg : Config) (g : NightState) (st : StationState)
    (data : List ℕ) (hp : Bool) (now : Int) :
    (process_packet_ cfg g st data hp now).2.1.firstDataReceived = st.firstDataReceived := rfl

theorem process_packet_preserves_lastTime (cfg : Config) (g : NightState) (st : StationState)
    (data : List ℕ) (hp : Bool) (now : Int) :
    (process_packet_ cfg g st data hp now).2.1.lastPacketTime = st.lastPacketTime := rfl

/-- C8: on a tick that received a non-empty buffer, the session marks
data as received and stamps the packet time with the tick's `now`, even
when the buffer fails validation. -/
theorem c8_any_buffer_refreshes_watchdog (cfg : Config) (g : NightState)
    (st : StationState) (now : Int) (buf : List ℕ) (h : buf ≠ []) :
    ((loop cfg (g, st) now buf).1.2.firstDataReceived = true)
    ∧ ((loop cfg (g, st) now buf).1.2.lastPacketTime = now) := by
  have hb : buf.isEmpty = false := by
    cases buf with
    | nil => exact absurd rfl h
    | cons a t => rfl
  unfold loop
  by_cases hf : st.firstDataReceived = true ∧ now - st.lastPacketTime > communicationTimeoutMs
  · by_cases hw : check_packet_ buf = PacketType.wrong
    · simp [hb, hf, hw]
    · simp [hb, hf, hw, process_packet_preserves_first, process_packet_preserves_lastTime]
  · by_cases hw : check_packet_ buf = PacketType.wrong
    · simp [hb, hf, hw]
    · simp [hb, hf, hw, process_packet_preserves_first, process_packet_preserves_lastTime]

/-- Witness for C8: a malformed one-byte buffer still refreshes the
bookkeeping. -/
theorem c8_witness :
    ([5] : List ℕ) ≠ []
    ∧ ((loop cfgFull (nightInit, stationInit) 7 [5]).1.2.firstDataReceived = true)
    ∧ ((loop cfgFull (nightInit, stationInit) 7 [5]).1.2.lastPacketTime = 7) :=
  ⟨by decide,
   (c8_any_buffer_refreshes_watchdog cfgFull nightInit stationInit 7 [5] (by decide)).1,
   (c8_any_buffer_refreshes_watchdog cfgFull nightInit stationInit 7 [5] (by decide)).2⟩

/-- C2: the `misol` variant's rate computation overwrites the stored
baseline before subtracting it, so at baseline counter 100 and a call
with counter 110 at t = 181 s (past its fixed 3-minute window) it
publishes 0 — while the documented formula, and the `misol_weather`
variant at the spec's 61-second example with a 1-minute interval, give
the nonzero value (10 × 0.3)/(elapsed hours). -/
theorem c2_rate_formula_vs_old_variant :
    (∀ now2 : Int, precipitation_update_old 100 0 110 181000 now2 =
      ((110, 181000), some (.num 0)))
    ∧ precipitation_update 60000 (some 100) 0 110 61000 =
        ((some 110, 61000), some (.num (10800/61)))
    ∧ ((10:ℚ) * (3/10) / ((61:ℚ) / 3600) = 10800/61)
    ∧ ((10800:ℚ)/61 ≠ 0) := by
  refine ⟨fun now2 => ?_, ?_, by norm_num, by norm_num⟩
  · simp only [precipitation_update_old]
    rw [show ((181000:Int) - 0).tdiv 1000 = 181 from rfl]
    norm_num [precipitationIntensityIntervalMs]
  · simp only [precipitation_update]
    rw [show ((61000:Int) - 0).tdiv 1000 = 61 from rfl]
    norm_num

/-- C4 counterexample: the `misol_weather` variant performs no sentinel
check — a call carrying the sentinel counter 0xFFFF past the window
computes a rate with the sentinel as an endpoint and stores the sentinel
as the new baseline instead of resetting it. -/
theorem c4_counterexample :
    precipitation_update 180000 (some 100) 0 0xFFFF 200000 =
      ((some 0xFFFF, 200000), some (.num 353349))
    ∧ (some (0xFFFF : ℕ) ≠ (none : Option ℕ))
    ∧ (FloatVal.num 353349 ≠ FloatVal.nan) := by
  refine ⟨?_, by decide, by decide⟩
  simp only [precipitation_update]
  rw [show ((200000:Int) - 0).tdiv 1000 = 200 from rfl]
  norm_num

/-- C4 amended: in the `misol` variant a sentinel counter does reset
the baseline marker and publishes only the `NAN` marker, never a finite
rate. -/
theorem c4_old_variant_sentinel_resets (prev : ℕ) (prevTs : Int) (now now2 : Int) :
    precipitation_update_old prev prevTs 0xFFFF now now2 =
      ((0xFFFF, prevTs), some .nan) := by
  unfold precipitation_update_old
  simp

/-- C1 amended: in the `misol_weather` variant, its sentinel is honoured
on the wind-direction, temperature, wind-speed, wind-gust, UV-intensity,
UV-index and illuminance channels: when the raw bits equal the sentinel
the published value is the `NAN` marker. -/
theorem c1_sentinels_decode_to_nan (data : List ℕ) (g : NightState) (st : StationState)
    (hp : Bool) (now : Int) :
    (windDirRaw data = 0x1FF →
      (process_packet_ cfgFull g st data hp now).2.2.windDir = some .nan)
    ∧ (temperatureRaw data = 0x7FF →
      (process_packet_ cfgFull g st data hp now).2.2.temperature = some .nan)
    ∧ (windSpeedRaw data = 0x1FF →
      (process_packet_ cfgFull g st data hp now).2.2.windSpeed = some .nan)
    ∧ (data.getD 7 0 = 0xFF →
      (process_packet_ cfgFull g st data hp now).2.2.windGust = some .nan)
    ∧ (uvRaw data = 0xFFFF →
      (process_packet_ cfgFull g st data hp now).2.2.uvIntensity = some .nan
        ∧ (process_packet_ cfgFull g st data hp now).2.2.uvIndex = some .nan)
    ∧ (lightRaw data = 0xFFFFFF →
      (process_packet_ cfgFull g st data hp now).2.2.light = some .nan) := by
  refine ⟨fun h => ?_, fun h => ?_, fun h => ?_, fun h => ?_, fun h => ⟨?_, ?_⟩, fun h => ?_⟩
  case refine_4 =>
    rw [List.getD_eq_getElem?_getD] at h
    simp [process_packet_, cfgFull, h]
  all_goals simp [process_packet_, cfgFull, h]

/-- A validated 17-byte frame (sync byte, correct checksum) whose
humidity byte is 0xFF and whose precipitation counter is 0xFFFF. -/
def sampleSentinelFrame : List ℕ :=
  [0x24, 0, 0, 0, 0, 0xFF, 0, 0, 0xFF, 0xFF, 0, 0, 0, 0, 0, 0, 33]

/-- A 17-byte frame carrying the sentinel bit pattern on every channel
that honours one: wind direction, temperature, wind speed, wind gust,
UV intensity and illuminance. -/
def sampleAllSentinelFrame : List ℕ :=
  [0x24, 0, 0xFF, 0x97, 0xFF, 0, 0xFF, 0xFF, 0, 0, 0xFF, 0xFF, 0xFF, 0xFF, 0xFF, 0, 0]

/-- C1 counterexample: a validated frame whose humidity byte and
precipitation counter hold their sentinels still publishes finite
sentinel-derived numbers — 255 % and 0xFFFF × 0.3 mm — on those
channels instead of the `NAN` marker. -/
theorem c1_counterexample :
    check_packet_ sampleSentinelFrame = .basic
    ∧ (process_packet_ cfgFull nightInit stationInit
        sampleSentinelFrame false 0).2.2.humidity = some (.num 255)
    ∧ (process_packet_ cfgFull nightInit stationInit
        sampleSentinelFrame false 0).2.2.accPrecip = some (.num ((65535:ℚ) * (3/10)))
    ∧ ((255:ℚ) ≠ 0) ∧ ((65535:ℚ) * (3/10) ≠ 0)
    ∧ FloatVal.num 255 ≠ FloatVal.nan
    ∧ FloatVal.num ((65535:ℚ) * (3/10)) ≠ FloatVal.nan := by
  refine ⟨by decide, ?_, ?_, by norm_num, by norm_num, by simp, by simp⟩
  · simp [process_packet_, cfgFull, sampleSentinelFrame]
  · simp [process_packet_, cfgFull, sampleSentinelFrame, accPrecipRaw]

/-- Witness for C1 on a frame carrying every honoured sentinel. -/
theorem c1_witness :
    (windDirRaw sampleAllSentinelFrame = 0x1FF
      ∧ (process_packet_ cfgFull nightInit stationInit
          sampleAllSentinelFrame false 0).2.2.windDir = some .nan)
    ∧ (temperatureRaw sampleAllSentinelFrame = 0x7FF
      ∧ (process_packet_ cfgFull nightInit stationInit
          sampleAllSentinelFrame false 0).2.2.temperature = some .nan)
    ∧ (windSpeedRaw sampleAllSentinelFrame = 0x1FF
      ∧ (process_packet_ cfgFull nightInit stationInit
          sampleAllSentinelFrame false 0).2.2.windSpeed = some .nan)
    ∧ (sampleAllSentinelFrame.getD 7 0 = 0xFF
      ∧ (process_packet_ cfgFull nightInit stationInit
          sampleAllSentinelFrame false 0).2.2.windGust = some .nan)
    ∧ (uvRaw sampleAllSentinelFrame = 0xFFFF
      ∧ (process_packet_ cfgFull nightInit stationInit
          sampleAllSentinelFrame false 0).2.2.uvIntensity = some .nan
      ∧ (process_packet_ cfgFull nightInit stationInit
          sampleAllSentinelFrame false 0).2.2.uvIndex = some .nan)
    ∧ (lightRaw sampleAllSentinelFrame = 0xFFFFFF
      ∧ (process_packet_ cfgFull nightInit stationInit
          sampleAllSentinelFrame false 0).2.2.light = some .nan) :=
  have h := c1_sentinels_decode_to_nan sampleAllSentinelFrame nightInit stationInit false 0
  ⟨⟨by decide, h.1 (by decide)⟩,
   ⟨by decide, h.2.1 (by decide)⟩,
   ⟨by decide, h.2.2.1 (by decide)⟩,
   ⟨by decide, h.2.2.2.1 (by decide)⟩,
   ⟨by decide, (h.2.2.2.2.1 (by decide)).1, (h.2.2.2.2.1 (by decide)).2⟩,
   ⟨by decide, h.2.2.2.2.2 (by decide)⟩⟩

/-- C3 amended: on a tick where the session is active and the timeout
has elapsed, even with no bytes received, the station publishes `NAN`
on all eleven numeric sensor channels, drops the precipitation
baseline and clears `first_data_received_`; however the battery-low and
night binary channels are not re-driven and `detect_night`'s statics
are left untouched. -/
theorem c3_timeout_reset (g : NightState) (st : StationState) (now : Int)
    (h1 : st.firstDataReceived = true)
    (h2 : now - st.lastPacketTime > communicationTimeoutMs) :
    (loop cfgFull (g, st) now []).1.1 = g
    ∧ (loop cfgFull (g, st) now []).1.2.firstDataReceived = false
    ∧ (loop cfgFull (g, st) now []).1.2.prevPrecip = none
    ∧ (loop cfgFull (g, st) now []).2.1 =
        some (reset_sub_entities_ cfgFull { st with firstDataReceived := false }).2
    ∧ (loop cfgFull (g, st) now []).2.2 = none
    ∧ (reset_sub_entities_ cfgFull { st with firstDataReceived := false }).2 =
        { temperature := some .nan, humidity := some .nan, pressure := some .nan,
          windSpeed := some .nan, windGust := some .nan, windDir := some .nan,
          accPrecip := some .nan, uvIntensity := some .nan, uvIndex := some .nan,
          light := some .nan, precipIntensity := some .nan,
          battery := none, night := none } := by
  have hf : st.firstDataReceived = true ∧ now - st.lastPacketTime > communicationTimeoutMs :=
    ⟨h1, h2⟩
  unfold loop
  simp [hf, reset_sub_entities_, cfgFull]

/-- Witness for C3 (amended) at a concrete timed-out state. -/
theorem c3_witness :
    ((⟨true, 0, some 5, 0⟩ : StationState).firstDataReceived = true)
    ∧ ((121000 : Int) - (⟨true, 0, some 5, 0⟩ : StationState).lastPacketTime >
        communicationTimeoutMs)
    ∧ (loop cfgFull (⟨false, true⟩, ⟨true, 0, some 5, 0⟩) 121000 []).1.1 = ⟨false, true⟩
    ∧ (loop cfgFull (⟨false, true⟩, ⟨true, 0, some 5, 0⟩) 121000 []).1.2.firstDataReceived
        = false
    ∧ (loop cfgFull (⟨false, true⟩, ⟨true, 0, some 5, 0⟩) 121000 []).1.2.prevPrecip = none :=
  have h := c3_timeout_reset ⟨false, true⟩ ⟨true, 0, some 5, 0⟩ 121000 rfl (by decide)
  ⟨rfl, by decide, h.1, h.2.1, h.2.2.1⟩

/-- C3 counterexample: on a timed-out tick the reset publishes nothing
on the night and battery binary channels, and the night detector's
statics stay in their has-run state — contradicting the claim that
every published channel is re-driven and the detector reset. -/
theorem c3_counterexample :
    (loop cfgFull (⟨false, true⟩, ⟨true, 0, some 5, 0⟩) 121000 []).1.1 = ⟨false, true⟩
    ∧ ((⟨false, true⟩ : NightState) ≠ nightInit)
    ∧ (loop cfgFull (⟨false, true⟩, ⟨true, 0, some 5, 0⟩) 121000 []).2.1 =
        some (reset_sub_entities_ cfgFull ⟨false, 0, some 5, 0⟩).2
    ∧ (reset_sub_entities_ cfgFull ⟨false, 0, some 5, 0⟩).2.night = none
    ∧ (reset_sub_entities_ cfgFull ⟨false, 0, some 5, 0⟩).2.battery = none
    ∧ (loop cfgFull (⟨false, true⟩, ⟨true, 0, some 5, 0⟩) 121000 []).2.2 = none := by
  refine ⟨?_, by decide, ?_, by decide, by decide, ?_⟩
  · unfold loop
    simp [reset_sub_entities_, cfgFull, communicationTimeoutMs]
  · unfold loop
    simp [reset_sub_entities_, cfgFull, communicationTimeoutMs]
  · unfold loop
    simp [reset_sub_entities_, cfgFull, communicationTimeoutMs]

theorem precipitation_update_keeps_some (intervalMs : Int) (prev : Option ℕ)
    (prevTs : Int) (acc : ℕ) (now : Int) :
    ((precipitation_update intervalMs prev prevTs acc now).1.1).isSome = true := by
  unfold precipitation_update
  match prev with
  | none => rfl
  | some p =>
    dsimp only
    split <;> rfl

theorem process_packet_prevPrecip (cfg : Config) (g : NightState) (st : StationState)
    (data : List ℕ) (hp : Bool) (now : Int) :
    (process_packet_ cfg g st data hp now).2.1.prevPrecip =
      (precipitation_update cfg.precipIntervalMs st.prevPrecip st.prevPrecipTime
        (accPrecipRaw data) now).1.1 := rfl

/-- One step of the specification-side baseline tracker: it becomes
true after any tick that processed a validated packet, false after a
timeout tick that processed none, and is unchanged otherwise. -/
def baselineGhostStep (st : StationState) (now : Int) (buf : List ℕ) (gh : Bool) : Bool :=
  if ¬buf.isEmpty = true ∧ check_packet_ buf ≠ .wrong then true
  else if st.firstDataReceived = true ∧ now - st.lastPacketTime > communicationTimeoutMs then
    false
  else gh

/-- Running the baseline tracker alongside the session. -/
def runBaselineGhost (cfg : Config) (s : NightState × StationState) (gh : Bool) :
    List (Int × List ℕ) → Bool
  | [] => gh
  | (now, buf) :: rest =>
      runBaselineGhost cfg (loop cfg s now buf).1 (baselineGhostStep s.2 now buf gh) rest

theorem loop_prevPrecip_ghost (cfg : Config) (g : NightState) (st : StationState)
    (now : Int) (buf : List ℕ) (hcfg : cfg.hasPrecipIntensity = true) (gh : Bool)
    (h : st.prevPrecip.isSome = gh) :
    ((loop cfg (g, st) now buf).1.2.prevPrecip).isSome = baselineGhostStep st now buf gh := by
  unfold loop baselineGhostStep
  by_cases hf : st.firstDataReceived = true ∧ now - st.lastPacketTime > communicationTimeoutMs
  · by_cases hb : buf.isEmpty = true
    · simp [hf, hb, reset_sub_entities_, hcfg]
    · by_cases hw : check_packet_ buf = PacketType.wrong
      · simp [hf, hb, hw, reset_sub_entities_, hcfg]
      · simp [hf, hb, hw, process_packet_prevPrecip, precipitation_update_keeps_some]
  · by_cases hb : buf.isEmpty = true
    · simp [hf, hb, h]
    · by_cases hw : check_packet_ buf = PacketType.wrong
      · simp [hf, hb, hw, h]
      · simp [hf, hb, hw, process_packet_prevPrecip, precipitation_update_keeps_some]

theorem runSession_ghost (cfg : Config) (hcfg : cfg.hasPrecipIntensity = true) :
    ∀ (inputs : List (Int × List ℕ)) (s : NightState × StationState) (gh : Bool),
      s.2.prevPrecip.isSome = gh →
      ((runSession cfg s inputs).2.prevPrecip).isSome = runBaselineGhost cfg s gh inputs := by
  intro inputs
  induction inputs with
  | nil => intro s gh h; simpa [runSession, runBaselineGhost] using h
  | cons e rest ih =>
    intro s gh h
    obtain ⟨now, buf⟩ := e
    obtain ⟨g, st⟩ := s
    simp only [runSession, runBaselineGhost]
    exact ih _ _ (loop_prevPrecip_ghost cfg g st now buf hcfg gh h)

/-- C7 amended: when the precipitation-intensity sensor is configured,
along every session run the stored baseline is present exactly when the
tracker says a validated packet has been processed since session start
or the last timeout reset (a timeout tick with no validated packet
always drops it). -/
theorem c7_baseline_absent_iff_no_reading (cfg : Config)
    (inputs : List (Int × List ℕ)) (hcfg : cfg.hasPrecipIntensity = true) :
    ((runSession cfg (nightInit, stationInit) inputs).2.prevPrecip).isSome =
      runBaselineGhost cfg (nightInit, stationInit) false inputs :=
  runSession_ghost cfg hcfg inputs (nightInit, stationInit) false rfl

/-- Witness for C7 (amended) on a run with one validated packet
followed by a timed-out silent tick. -/
theorem c7_witness :
    cfgFull.hasPrecipIntensity = true
    ∧ ((runSession cfgFull (nightInit, stationInit)
          [(0, sampleSentinelFrame), (121000, [])]).2.prevPrecip).isSome =
        runBaselineGhost cfgFull (nightInit, stationInit) false
          [(0, sampleSentinelFrame), (121000, [])] :=
  ⟨rfl, c7_baseline_absent_iff_no_reading cfgFull [(0, sampleSentinelFrame), (121000, [])] rfl⟩

/-- A configuration identical to the full one except that the
precipitation-intensity sensor is absent. -/
def cfgNoPrecipIntensity : Config := { cfgFull with hasPrecipIntensity := false }

/-- C7 counterexample: without the precipitation-intensity sensor the
baseline is still established by a packet, yet a timeout tick does not
drop it — `reset_sub_entities_` only clears it under that sensor's null
check — so "a timeout always sets it back to absent" fails. -/
theorem c7_counterexample :
    ((runSession cfgNoPrecipIntensity (nightInit, stationInit)
        [(0, sampleSentinelFrame), (121000, [])]).2.prevPrecip = some 65535)
    ∧ ((runSession cfgNoPrecipIntensity (nightInit, stationInit)
        [(0, sampleSentinelFrame), (121000, [])]).2.firstDataReceived = false)
    ∧ ((121000 : Int) - 0 > communicationTimeoutMs)
    ∧ (some (65535 : ℕ) ≠ (none : Option ℕ)) := by
  refine ⟨?_, ?_, by decide, by decide⟩ <;> decide

/-- Station identifiers in a process hosting two component instances. -/
inductive Sid where
  | a
  | b
deriving DecidableEq

/-- A process holding two `WeatherStation` instances; `detect_night`'s
file-scope statics `g` are shared by both, the per-instance members are
separate. -/
structure ProcState where
  g : NightState
  sa : StationState
  sb : StationState

/-- Interleaved run of the two stations.  Each event carries the target
station, the tick time and the received buffer; outputs are tagged with
the station that produced them. -/
def procRun (cfgA cfgB : Config) (p : ProcState) :
    List (Sid × Int × List ℕ) → List (Sid × (Option ChannelOut × Option ChannelOut))
  | [] => []
  | (sid, now, buf) :: rest =>
    match sid with
    | .a =>
      let r := loop cfgA (p.g, p.sa) now buf
      (.a, r.2) :: procRun cfgA cfgB ⟨r.1.1, r.1.2, p.sb⟩ rest
    | .b =>
      let r := loop cfgB (p.g, p.sb) now buf
      (.b, r.2) :: procRun cfgA cfgB ⟨r.1.1, p.sa, r.1.2⟩ rest

/-- The outputs station A produced, in order. -/
def outputsOfA : List (Sid × (Option ChannelOut × Option ChannelOut)) →
    List (Option ChannelOut × Option ChannelOut)
  | [] => []
  | (Sid.a, o) :: rest => o :: outputsOfA rest
  | (Sid.b, _) :: rest => outputsOfA rest

/-- The (time, buffer) events addressed to station A, in order. -/
def projA : List (Sid × Int × List ℕ) → List (Int × List ℕ)
  | [] => []
  | (Sid.a, e) :: rest => e :: projA rest
  | (Sid.b, _) :: rest => projA rest

/-- Dropping the night channel from a publish record. -/
def eraseNight (o : ChannelOut) : ChannelOut := { o with night := none }

def erasePair (p : Option ChannelOut × Option ChannelOut) :
    Option ChannelOut × Option ChannelOut :=
  (p.1.map eraseNight, p.2.map eraseNight)

/-- Station A's session run viewed alone, collecting night-erased
outputs; the shared statics do not feed any other channel, so they are
pinned at the fresh value here. -/
def runErasedA (cfg : Config) (st : StationState) :
    List (Int × List ℕ) → List (Option ChannelOut × Option ChannelOut)
  | [] => []
  | (now, buf) :: rest =>
    let r := loop cfg (nightInit, st) now buf
    erasePair r.2 :: runErasedA cfg r.1.2 rest

theorem process_packet_state_g_irrel (cfg : Config) (g g2 : NightState) (st : StationState)
    (data : List ℕ) (hp : Bool) (now : Int) :
    (process_packet_ cfg g st data hp now).2.1 =
      (process_packet_ cfg g2 st data hp now).2.1 := rfl

theorem process_packet_erase_g_irrel (cfg : Config) (g g2 : NightState) (st : StationState)
    (data : List ℕ) (hp : Bool) (now : Int) :
    eraseNight (process_packet_ cfg g st data hp now).2.2 =
      eraseNight (process_packet_ cfg g2 st data hp now).2.2 := rfl

theorem loop_state_g_irrel (cfg : Config) (g g2 : NightState) (st : StationState)
    (now : Int) (buf : List ℕ) :
    (loop cfg (g, st) now buf).1.2 = (loop cfg (g2, st) now buf).1.2 := by
  unfold loop
  by_cases hb : buf.isEmpty = true <;> by_cases hw : check_packet_ buf = PacketType.wrong <;>
    simp [hb, hw, process_packet_state_g_irrel cfg g g2]

theorem loop_erase_g_irrel (cfg : Config) (g g2 : NightState) (st : StationState)
    (now : Int) (buf : List ℕ) :
    erasePair (loop cfg (g, st) now buf).2 = erasePair (loop cfg (g2, st) now buf).2 := by
  unfold loop
  by_cases hb : buf.isEmpty = true <;> by_cases hw : check_packet_ buf = PacketType.wrong <;>
    simp [hb, hw, erasePair, process_packet_erase_g_irrel cfg g g2]

theorem procRun_outputsA (cfgA cfgB : Config) :
    ∀ (events : List (Sid × Int × List ℕ)) (p : ProcState),
      (outputsOfA (procRun cfgA cfgB p events)).map erasePair =
        runErasedA cfgA p.sa (projA events) := by
  intro events
  induction events with
  | nil => intro p; rfl
  | cons e rest ih =>
    intro p
    obtain ⟨sid, now, buf⟩ := e
    cases sid with
    | a =>
      simp only [procRun, outputsOfA, projA, runErasedA, List.map_cons]
      refine congrArg₂ (· :: ·) ?_ ?_
      · exact loop_erase_g_irrel cfgA p.g nightInit p.sa now buf
      · rw [ih ⟨(loop cfgA (p.g, p.sa) now buf).1.1, (loop cfgA (p.g, p.sa) now buf).1.2, p.sb⟩]
        exact congrArg (fun st => runErasedA cfgA st (projA rest))
          (loop_state_g_irrel cfgA p.g nightInit p.sa now buf)
    | b =>
      simp only [procRun, outputsOfA, projA]
      exact ih ⟨(loop cfgB (p.g, p.sb) now buf).1.1, p.sa, (loop cfgB (p.g, p.sb) now buf).1.2⟩

/-- C9 amended: in the `misol_weather` variant, for a fixed station
instance every published channel except the night binary channel is a
deterministic function of that instance's own (time, buffer) sequence:
two interleaved process runs whose A-projections agree produce
identical night-erased output sequences for A, whatever the shared
night statics, the sibling instance's state, configuration and events. -/
theorem c9_determinism_except_night (cfgA cfgB cfgB2 : Config)
    (p1 p2 : ProcState) (e1 e2 : List (Sid × Int × List ℕ))
    (hsa : p1.sa = p2.sa) (he : projA e1 = projA e2) :
    (outputsOfA (procRun cfgA cfgB p1 e1)).map erasePair =
      (outputsOfA (procRun cfgA cfgB2 p2 e2)).map erasePair := by
  rw [procRun_outputsA, procRun_outputsA, hsa, he]

/-- A valid 17-byte basic frame with UV-intensity raw value 50 (5.0). -/
def pktUv50 : List ℕ := [0x24, 0, 0, 0, 0, 0, 0, 0, 0, 0, 0, 50, 0, 0, 0, 0, 86]

/-- A valid 17-byte basic frame with UV-intensity raw value 0. -/
def pktUv0 : List ℕ := [0x24, 0, 0, 0, 0, 0, 0, 0, 0, 0, 0, 0, 0, 0, 0, 0, 36]

/-- C9 counterexample: two process runs feeding station A the identical
event sequence differ in A's published night value, because the sibling
instance's packet advanced the shared `detect_night` statics first —
A's output sequence is not a function of its own inputs alone. -/
theorem c9_counterexample :
    projA [(Sid.a, 0, pktUv50)] = projA [(Sid.b, 0, pktUv0), (Sid.a, 0, pktUv50)]
    ∧ (outputsOfA (procRun cfgFull cfgFull ⟨nightInit, stationInit, stationInit⟩
        [(Sid.a, 0, pktUv50)])).map (fun o => o.2.map ChannelOut.night) = [some (some false)]
    ∧ (outputsOfA (procRun cfgFull cfgFull ⟨nightInit, stationInit, stationInit⟩
        [(Sid.b, 0, pktUv0), (Sid.a, 0, pktUv50)])).map (fun o => o.2.map ChannelOut.night) =
        [some (some true)]
    ∧ ((some (some false) : Option (Option Bool)) ≠ some (some true)) := by
  have hc : check_packet_ pktUv50 = PacketType.basic := by decide
  have hc0 : check_packet_ pktUv0 = PacketType.basic := by decide
  have hu : uvRaw pktUv50 = 50 := by decide
  have hu0 : uvRaw pktUv0 = 0 := by decide
  have hne : ¬(pktUv50 = []) := by decide
  have hne0 : ¬(pktUv0 = []) := by decide
  refine ⟨by decide, ?_, ?_, by decide⟩
  · simp [procRun, outputsOfA, loop, hc, hu, hne, process_packet_, cfgFull, stationInit,
      nightInit, detect_night, communicationTimeoutMs]
    norm_num
  · simp [procRun, outputsOfA, loop, hc, hc0, hu, hu0, hne, hne0, process_packet_, cfgFull,
      stationInit, nightInit, detect_night, communicationTimeoutMs]
    norm_num

/-- Witness for C9 (amended): interleaving a sibling-instance packet
does not change station A's night-erased outputs. -/
theorem c9_witness :
    (⟨nightInit, stationInit, stationInit⟩ : ProcState).sa =
      (⟨nightInit, stationInit, stationInit⟩ : ProcState).sa
    ∧ projA [(Sid.a, 0, pktUv50)] = projA [(Sid.b, 5, pktUv0), (Sid.a, 0, pktUv50)]
    ∧ (outputsOfA (procRun cfgFull cfgFull ⟨nightInit, stationInit, stationInit⟩
        [(Sid.a, 0, pktUv50)])).map erasePair =
      (outputsOfA (procRun cfgFull cfgNoPrecipIntensity ⟨nightInit, stationInit, stationInit⟩
        [(Sid.b, 5, pktUv0), (Sid.a, 0, pktUv50)])).map erasePair :=
  ⟨rfl, by decide,
   c9_determinism_except_night cfgFull cfgFull cfgNoPrecipIntensity
     ⟨nightInit, stationInit, stationInit⟩ ⟨nightInit, stationInit, stationInit⟩
     [(Sid.a, 0, pktUv50)] [(Sid.b, 5, pktUv0), (Sid.a, 0, pktUv50)] rfl (by decide)⟩
